import Mathlib

/-!
Shallow embedding of `src/app.py`, the Vidssave session generator API:
the `/vidssave` endpoint (`generate_session`), its network-capture callback
(`capture_request`), resource selection, and Netscape cookie serialization
(`cookies_to_netscape`), together with theorems settling the specified
properties.
-/

set_option autoImplicit false
set_option linter.unusedVariables false
set_option linter.unnecessarySeqFocus false

namespace Vidssave

/-- Python's `sep.join(xs)` for strings. -/
def joinSep (sep : String) : List String → String
  | [] => ""
  | [x] => x
  | x :: y :: xs => x ++ sep ++ joinSep sep (y :: xs)

/-- Substring containment, Python's `needle in hay` for strings. -/
def strContains (hay needle : String) : Bool :=
  hay.toList.tails.any (fun t => needle.toList.isPrefixOf t)

/-- Python's `s.startswith(pre)`. -/
def strStartsWith (s pre : String) : Bool :=
  pre.toList.isPrefixOf s.toList

/-- A browser cookie record as produced by `context.cookies()` and consumed
by `cookies_to_netscape` (app.py lines 16-30): `expires` may be JSON null
(`none`). -/
structure Cookie where
  domain : String
  path : String
  secure : Bool
  expires : Option Int
  name : String
  value : String
deriving Repr, DecidableEq

/-- Python's `str(c["expires"] or 0)` (app.py line 25): null renders as `0`. -/
def expiresField (e : Option Int) : String :=
  match e with
  | none => "0"
  | some n => if n = 0 then "0" else toString n

/-- The seven tab-joined fields of one cookie line (app.py lines 19-29). -/
def cookieLine (c : Cookie) : String :=
  joinSep "\t"
    [ c.domain
    , if strStartsWith c.domain "." then "TRUE" else "FALSE"
    , c.path
    , if c.secure then "TRUE" else "FALSE"
    , expiresField c.expires
    , c.name
    , c.value ]

/-- `cookies_to_netscape` (app.py lines 16-30): header line, then one line
per cookie, all joined by newlines. -/
def cookies_to_netscape (cookies : List Cookie) : String :=
  joinSep "\n" ("# Netscape HTTP Cookie File" :: cookies.map cookieLine)

/-- An outbound browser request as seen by the `page.on("request", ...)`
observer: `post_data` is `none` when the request has no body. -/
structure Request where
  url : String
  method : String
  post_data : Option String
deriving Repr, DecidableEq

/-- The body of `capture_request` (app.py lines 60-66) acting on the
`parse_payload` slot: on a POST to a `/media/parse` URL whose body contains
`origin=cache`, assign `req.post_data` to the slot; otherwise leave it. -/
def capture_request (parse_payload : Option String) (req : Request) : Option String :=
  if strContains req.url "/media/parse" && (req.method == "POST") then
    let body := req.post_data.getD ""
    if strContains body "origin=cache" then req.post_data else parse_payload
  else
    parse_payload

/-- The value of the `parse_payload` slot after the observer has seen every
request of the session, in order (the slot starts as Python `None`). -/
def captureAll (reqs : List Request) : Option String :=
  reqs.foldl capture_request none

/-- The observer predicate as one boolean: POST method, `/media/parse` in
the URL, marker `origin=cache` in the body (`post_data or ""`). -/
def obsPred (req : Request) : Bool :=
  strContains req.url "/media/parse" && (req.method == "POST")
    && strContains (req.post_data.getD "") "origin=cache"

/-- One entry of the upstream `data.resources` list; each field is `none`
when the JSON key is absent (Python `r.get(k)` returning `None`). -/
structure MediaResource where
  type : Option String
  format : Option String
  quality : Option String
  download_mode : Option String
  download_url : Option String
deriving Repr, DecidableEq

/-- The selection condition of the loop at app.py lines 124-130: all four
fields equal `"video"`, `"MP4"`, the requested quality, `"direct"`. -/
def matchesQuality (q : String) (r : MediaResource) : Bool :=
  (r.type == some "video") && (r.format == some "MP4")
    && (r.quality == some q) && (r.download_mode == some "direct")

/-- Upstream parse-API JSON response, restricted to the key path the code
reads: `data` (absent = `none`) holding `resources` (absent = `none`). -/
structure RespData where
  resources : Option (List MediaResource)
deriving Repr

structure ParseResponse where
  data : Option RespData
deriving Repr

/-- `response.get("data", {}).get("resources", [])` (app.py line 120). -/
def extractResources (resp : ParseResponse) : List MediaResource :=
  match resp.data with
  | none => []
  | some d => d.resources.getD []

/-- The environment a single `/vidssave` request runs against: the outcomes
of the effectful steps of `generate_session` (app.py lines 42-151), in the
order the code performs them. -/
structure Env where
  /-- `page.goto("https://vidssave.com/", timeout=60000)` completes within
  its timeout instead of raising `TimeoutError`. -/
  navigationOk : Bool
  /-- `page.wait_for_selector("input", timeout=20000)` finds the input
  within its timeout instead of raising `TimeoutError`. -/
  inputFound : Bool
  /-- The outbound requests the page issues, in order, all observed by the
  `page.on("request", capture_request)` listener before the payload check. -/
  requests : List Request
  /-- `page.evaluate(...)` (the replayed fetch plus `r.json()`) succeeds
  instead of raising. -/
  evaluateOk : Bool
  /-- The JSON value the replayed parse call returns. -/
  parseResponse : ParseResponse
  /-- `context.cookies()` at session end. -/
  cookies : List Cookie
deriving Repr

/-- Resource-lifecycle events emitted while serving one request. -/
inductive Ev where
  /-- `p.chromium.launch(...)` -/
  | launchBrowser
  /-- an explicit `browser.close()` in the endpoint body -/
  | closeBrowser
  /-- the replayed `page.evaluate(fetch ...)` parse call -/
  | replayParse
  /-- the `async with async_playwright()` block exits, stopping the driver
  and releasing every session resource it owns -/
  | stopPlaywright
deriving Repr, DecidableEq

/-- The classified ways `generate_session` can fail. -/
inductive SessionFailure where
  /-- `page.goto` raised `TimeoutError` (uncaught in the endpoint) -/
  | navigationTimeout
  /-- `page.wait_for_selector` raised `TimeoutError` (uncaught) -/
  | inputWaitTimeout
  /-- `HTTPException(500, "Failed to capture parse payload")` (app.py line 94) -/
  | payloadNotCaptured
  /-- `HTTPException(404, "Direct download URL not found")` (app.py line 138) -/
  | downloadUrlNotFound
  /-- any other uncaught exception, e.g. `KeyError` from `r["download_url"]`
  or a failure inside `page.evaluate` -/
  | internalError (exn : String)
deriving Repr, DecidableEq

/-- The success value of `generate_session` (app.py lines 154-158). -/
structure ExtractionResult where
  download_url : String
  cookies : List Cookie
  cookies_netscape : String
deriving Repr, DecidableEq

/-- Python falsiness of an optional string: `None` and `""` are falsy. -/
def pyFalsy (s : Option String) : Bool :=
  match s with
  | none => true
  | some v => v == ""

/-- The selection loop (app.py lines 124-133) followed by the field access
`r["download_url"]`: the first all-four-fields match is taken; a missing
`download_url` key on it raises `KeyError`. -/
def selectDownloadUrl (q : String) (resources : List MediaResource) :
    Except String (Option String) :=
  match resources.find? (matchesQuality q) with
  | none => .ok none
  | some r =>
    match r.download_url with
    | none => .error "KeyError"
    | some u => .ok (some u)

/-- The body of the `async with async_playwright()` block of
`generate_session` (app.py lines 42-151), as a pure function from the
environment to the emitted resource events and the outcome. -/
def generate_session_body (env : Env) (quality : String) :
    List Ev × Except SessionFailure ExtractionResult :=
  if !env.navigationOk then
    ([.launchBrowser], .error .navigationTimeout)
  else if !env.inputFound then
    ([.launchBrowser], .error .inputWaitTimeout)
  else
    let parse_payload := captureAll env.requests
    if pyFalsy parse_payload then
      ([.launchBrowser, .closeBrowser], .error .payloadNotCaptured)
    else if !env.evaluateOk then
      ([.launchBrowser, .replayParse], .error (.internalError "EvaluateError"))
    else
      let resources := extractResources env.parseResponse
      match selectDownloadUrl quality resources with
      | .error e => ([.launchBrowser, .replayParse], .error (.internalError e))
      | .ok download_url =>
        if pyFalsy download_url then
          ([.launchBrowser, .replayParse, .closeBrowser], .error .downloadUrlNotFound)
        else
          ([.launchBrowser, .replayParse, .closeBrowser],
            .ok { download_url := download_url.getD ""
                , cookies := env.cookies
                , cookies_netscape := cookies_to_netscape env.cookies })

/-- `generate_session`: the body wrapped in `async with async_playwright()`,
whose exit runs on every path (normal return, `HTTPException`, or any other
exception propagating out) and stops the driver, releasing the session. -/
def generate_session (env : Env) (quality : String) :
    List Ev × Except SessionFailure ExtractionResult :=
  let (evs, res) := generate_session_body env quality
  (evs ++ [.stopPlaywright], res)

/-- The `/vidssave` route: `quality` is a query parameter with default
`"360P"` (app.py line 36); `youtube_url` is required and only typed into
the page, so it does not affect the modelled outcome. -/
def vidssave_endpoint (env : Env) (youtube_url : String) (quality : Option String) :
    List Ev × Except SessionFailure ExtractionResult :=
  generate_session env (quality.getD "360P")

/-- A JSON value occurring in a `/vidssave` response body. -/
inductive JVal where
  | s (v : String)
  | cookieList (v : List Cookie)
deriving Repr, DecidableEq

/-- Modelled from the spec: the HTTP status of each failure kind. The
statuses of `payloadNotCaptured` (500) and `downloadUrlNotFound` (404) are
the literal `HTTPException` arguments in src (app.py lines 94 and 138); for
the uncaught exceptions (navigation timeout, input-wait timeout, internal
errors) the rendering lives in the FastAPI framework, not in src, and the
spec fixes it at 500. -/
def failureStatus : SessionFailure → Nat
  | .payloadNotCaptured => 500
  | .downloadUrlNotFound => 404
  | .navigationTimeout => 500
  | .inputWaitTimeout => 500
  | .internalError _ => 500

/-- Modelled from the spec: the error message string of each failure kind.
The messages of the two `HTTPException`s are the literal detail strings in
src; for uncaught exceptions the framework reports a generic message. -/
def failureMessage : SessionFailure → String
  | .payloadNotCaptured => "Failed to capture parse payload"
  | .downloadUrlNotFound => "Direct download URL not found"
  | .navigationTimeout => "Internal Server Error"
  | .inputWaitTimeout => "Internal Server Error"
  | .internalError _ => "Internal Server Error"

/-- Modelled from the spec (the HTTP layer around the endpoint, out of scope
of src): a success returns 200 with the JSON object of app.py lines
154-158; a failure returns its fixed status with a JSON object holding the
error message string. -/
def renderResponse (res : Except SessionFailure ExtractionResult) :
    Nat × List (String × JVal) :=
  match res with
  | .ok r =>
    (200,
      [ ("download_url", .s r.download_url)
      , ("cookies", .cookieList r.cookies)
      , ("cookies_netscape", .s r.cookies_netscape) ])
  | .error f => (failureStatus f, [("detail", .s (failureMessage f))])

/-- The cookie line as the spec words it: the seven fields — domain; TRUE
iff the domain starts with "."; path; TRUE iff secure; expires with null
rendered as 0; name; value — joined by literal tabs. -/
def specCookieLine (c : Cookie) : String :=
  c.domain ++ "\t" ++ (if strStartsWith c.domain "." then "TRUE" else "FALSE") ++ "\t"
    ++ c.path ++ "\t" ++ (if c.secure then "TRUE" else "FALSE") ++ "\t"
    ++ expiresField c.expires ++ "\t" ++ c.name ++ "\t" ++ c.value

/-! ## Concrete fixtures -/

/-- A request satisfying the observer predicate, first body variant. -/
def reqMatchA : Request :=
  { url := "https://api.vidssave.com/api/contentsite_api/media/parse"
  , method := "POST"
  , post_data := some "a=1&origin=cache" }

/-- A request satisfying the observer predicate, second body variant. -/
def reqMatchB : Request :=
  { url := "https://api.vidssave.com/api/contentsite_api/media/parse"
  , method := "POST"
  , post_data := some "b=2&origin=cache" }

/-- A POST to the parse URL whose body lacks the marker token. -/
def reqNoMarker : Request :=
  { url := "https://api.vidssave.com/api/contentsite_api/media/parse"
  , method := "POST"
  , post_data := some "a=1&origin=web" }

/-- The spec's worked example cookie. -/
def exampleCookie : Cookie :=
  { domain := "vidssave.com", path := "/", secure := true
  , expires := some 0, name := "sid", value := "abc" }

/-- An earlier entry with `download_mode` `"direct"` but format `"WEBM"`. -/
def entryWebmDirect : MediaResource :=
  { type := some "video", format := some "WEBM", quality := some "360P"
  , download_mode := some "direct", download_url := some "https://cdn.example/a.webm" }

/-- A 360P MP4 entry without `download_mode` `"direct"`. -/
def entry360NoDirect : MediaResource :=
  { type := some "video", format := some "MP4", quality := some "360P"
  , download_mode := some "p2p", download_url := some "https://cdn.example/b.mp4" }

/-- A 360P MP4 entry with every selection field matching. -/
def entry360Direct : MediaResource :=
  { type := some "video", format := some "MP4", quality := some "360P"
  , download_mode := some "direct", download_url := some "https://cdn.example/c.mp4" }

/-- The spec's end-to-end 720P entry. -/
def entry720Direct : MediaResource :=
  { type := some "video", format := some "MP4", quality := some "720P"
  , download_mode := some "direct", download_url := some "https://cdn.example/x.mp4" }

/-- An all-four-fields match whose `download_url` is the empty string. -/
def entryEmptyUrl : MediaResource :=
  { type := some "video", format := some "MP4", quality := some "360P"
  , download_mode := some "direct", download_url := some "" }

/-- A healthy session against an upstream returning the empty JSON object. -/
def envEmptyUpstream : Env :=
  { navigationOk := true, inputFound := true, requests := [reqMatchA]
  , evaluateOk := true, parseResponse := { data := none }, cookies := [] }

/-- A session in which no request carries the marker token. -/
def envNoCapture : Env :=
  { navigationOk := true, inputFound := true, requests := [reqNoMarker]
  , evaluateOk := true, parseResponse := { data := none }, cookies := [] }

/-- The spec's end-to-end scenario: a single 720P direct MP4 resource. -/
def env720 : Env :=
  { navigationOk := true, inputFound := true, requests := [reqMatchA]
  , evaluateOk := true
  , parseResponse := { data := some { resources := some [entry720Direct] } }
  , cookies := [exampleCookie] }

/-- A session whose only matching resource has an empty `download_url`. -/
def envEmptyUrl : Env :=
  { navigationOk := true, inputFound := true, requests := [reqMatchA]
  , evaluateOk := true
  , parseResponse := { data := some { resources := some [entryEmptyUrl] } }
  , cookies := [] }

/-! ## Helper lemmas -/

/-- `capture_request` acts as: on a predicate match assign the request's
body, otherwise keep the slot. -/
theorem capture_request_eq (acc : Option String) (req : Request) :
    capture_request acc req = if obsPred req then req.post_data else acc := by
  unfold capture_request obsPred
  cases h1 : strContains req.url "/media/parse" && (req.method == "POST")
  · simp [h1]
  · cases h3 : strContains (req.post_data.getD "") "origin=cache"
    · simp [h1, h3]
    · simp [h1, h3]

/-- Closed form of the slot after a whole request sequence: the body of the
last predicate-matching request, or the initial value if none matched. -/
theorem foldl_capture_eq (reqs : List Request) (acc : Option String) :
    reqs.foldl capture_request acc =
      (((reqs.filter obsPred).getLast?).map Request.post_data).getD acc := by
  induction reqs using List.reverseRecOn with
  | nil => rfl
  | append_singleton rs r ih =>
    rw [List.foldl_append, List.foldl_cons, List.foldl_nil, capture_request_eq,
      List.filter_append]
    cases h : obsPred r
    · simp [h, ih]
    · simp [h, List.getLast?_concat]

/-- Only bodies containing the marker token ever occupy the slot. -/
theorem captureAll_marker (reqs : List Request) (s : String)
    (h : captureAll reqs = some s) : strContains s "origin=cache" = true := by
  rw [captureAll, foldl_capture_eq] at h
  cases hl : (reqs.filter obsPred).getLast? with
  | none => rw [hl] at h; simp at h
  | some r =>
    rw [hl] at h
    simp at h
    have hmem : r ∈ reqs.filter obsPred := by
      obtain ⟨hne, hEq⟩ :=
        List.mem_getLast?_eq_getLast (l := reqs.filter obsPred) (x := r)
          (Option.mem_def.mpr hl)
      rw [hEq]
      exact List.getLast_mem hne
    have hpred : obsPred r = true := (List.mem_filter.mp hmem).2
    simp only [obsPred, Bool.and_eq_true] at hpred
    have hbody := hpred.2
    rw [h] at hbody
    simpa using hbody

/-- First-match decomposition for `List.find?`. -/
theorem find?_first {α : Type} (p : α → Bool) (l : List α) (r : α)
    (h : l.find? p = some r) :
    p r = true ∧ ∃ l₁ l₂, l = l₁ ++ r :: l₂ ∧ ∀ x ∈ l₁, p x = false := by
  induction l with
  | nil => simp at h
  | cons a l ih =>
    rw [List.find?_cons] at h
    cases ha : p a
    · rw [ha] at h
      obtain ⟨hr, l₁, l₂, hdec, hfirst⟩ := ih h
      refine ⟨hr, a :: l₁, l₂, by rw [hdec]; rfl, ?_⟩
      intro x hx
      rcases List.mem_cons.mp hx with rfl | hx
      · exact ha
      · exact hfirst x hx
    · rw [ha] at h
      injection h with h
      subst h
      exact ⟨ha, [], l, rfl, by simp⟩

/-- Projections of `generate_session` in terms of its body. -/
theorem generate_session_eq (env : Env) (q : String) :
    generate_session env q =
      ((generate_session_body env q).1 ++ [Ev.stopPlaywright],
        (generate_session_body env q).2) := by
  unfold generate_session
  rfl

/-- Every branch of the body emits `launchBrowser` first. -/
theorem generate_session_body_launch (env : Env) (q : String) :
    ∃ t, (generate_session_body env q).1 = Ev.launchBrowser :: t := by
  unfold generate_session_body
  cases hn : env.navigationOk <;> cases hi : env.inputFound <;>
    cases hc : pyFalsy (captureAll env.requests) <;> cases he : env.evaluateOk <;>
      simp [hn, hi, hc, he] <;>
        rcases hs : selectDownloadUrl q (extractResources env.parseResponse)
          with e | du <;> simp [hs] <;>
            cases hd : pyFalsy du <;> simp [hd]

/-- The body after a successful navigation, input wait, payload capture and
replay call: only resource selection remains. -/
theorem generate_session_body_main (env : Env) (q : String)
    (hnav : env.navigationOk = true) (hinput : env.inputFound = true)
    (hcap : pyFalsy (captureAll env.requests) = false)
    (heval : env.evaluateOk = true) :
    generate_session_body env q =
      match selectDownloadUrl q (extractResources env.parseResponse) with
      | .error e => ([.launchBrowser, .replayParse], .error (.internalError e))
      | .ok download_url =>
        if pyFalsy download_url then
          ([.launchBrowser, .replayParse, .closeBrowser], .error .downloadUrlNotFound)
        else
          ([.launchBrowser, .replayParse, .closeBrowser],
            .ok { download_url := download_url.getD ""
                , cookies := env.cookies
                , cookies_netscape := cookies_to_netscape env.cookies }) := by
  unfold generate_session_body
  rw [hnav, hinput, heval]
  simp [hcap]

/-! ## Claim theorems -/

/-- C1 counterexample: with two requests that both satisfy the observer
predicate but carry different bodies, the slot ends up holding the SECOND
body, not the body of the first matching request — a later match is not a
no-op, it overwrites the capture. -/
theorem capture_first_match_counterexample :
    captureAll [reqMatchA, reqMatchB] = some "b=2&origin=cache" ∧
    (List.find? obsPred [reqMatchA, reqMatchB]).bind Request.post_data =
      some "a=1&origin=cache" ∧
    captureAll [reqMatchA, reqMatchB] ≠
      (List.find? obsPred [reqMatchA, reqMatchB]).bind Request.post_data := by
  refine ⟨by decide, by decide, by decide⟩

/-- C1 (amended): the `parse_payload` slot held by `capture_request` equals
the body of the LAST request satisfying the observer predicate (`none` when
no request matches); a later matching request overwrites the capture rather
than being a no-op. -/
theorem capture_last_match_wins (reqs : List Request) :
    captureAll reqs =
      match (reqs.filter obsPred).getLast? with
      | some r => r.post_data
      | none => none := by
  rw [captureAll, foldl_capture_eq]
  cases (reqs.filter obsPred).getLast? <;> rfl

/-- C2: the workflow selects the first entry, in original list order, whose
four fields `type`, `format`, `quality`, `download_mode` equal exactly
`"video"`, `"MP4"`, the requested quality, `"direct"`, and takes its
`download_url`; every earlier entry fails the full four-field conjunction.
The last conjunct is the spec's three-entry scenario: an earlier WEBM
direct entry and a 360P entry without direct mode are passed over. -/
theorem resource_selection_first_full_match :
    (∀ (q : String) (resources : List MediaResource) (r : MediaResource),
        resources.find? (matchesQuality q) = some r →
        (r.type = some "video" ∧ r.format = some "MP4" ∧
          r.quality = some q ∧ r.download_mode = some "direct") ∧
        (∃ l₁ l₂, resources = l₁ ++ r :: l₂ ∧
          ∀ x ∈ l₁, matchesQuality q x = false) ∧
        (∀ u, r.download_url = some u →
          selectDownloadUrl q resources = .ok (some u))) ∧
    selectDownloadUrl "360P" [entryWebmDirect, entry360NoDirect, entry360Direct] =
      .ok (some "https://cdn.example/c.mp4") := by
  constructor
  · intro q resources r h
    obtain ⟨hr, l₁, l₂, hdec, hfirst⟩ := find?_first (matchesQuality q) resources r h
    simp only [matchesQuality, Bool.and_eq_true, beq_iff_eq] at hr
    refine ⟨⟨hr.1.1.1, hr.1.1.2, hr.1.2, hr.2⟩, ⟨l₁, l₂, hdec, hfirst⟩, ?_⟩
    intro u hu
    rw [selectDownloadUrl, h]
    simp [hu]
  · rfl

/-- C2 witness: the general part applied to the spec's three-entry list. -/
theorem resource_selection_witness :
    (entry360Direct.type = some "video" ∧ entry360Direct.format = some "MP4" ∧
      entry360Direct.quality = some "360P" ∧
      entry360Direct.download_mode = some "direct") ∧
    (∃ l₁ l₂,
      [entryWebmDirect, entry360NoDirect, entry360Direct] = l₁ ++ entry360Direct :: l₂ ∧
      ∀ x ∈ l₁, matchesQuality "360P" x = false) ∧
    (∀ u, entry360Direct.download_url = some u →
      selectDownloadUrl "360P" [entryWebmDirect, entry360NoDirect, entry360Direct] =
        .ok (some u)) :=
  resource_selection_first_full_match.1 "360P"
    [entryWebmDirect, entry360NoDirect, entry360Direct] entry360Direct (by decide)

theorem cookieLine_eq_specCookieLine : cookieLine = specCookieLine := by
  funext c
  simp [cookieLine, specCookieLine, joinSep, String.append_assoc]

/-- C3: `cookies_to_netscape` serializes each cookie as one tab-joined
seven-field line in the spec's field order, lines joined by newlines; and
the spec's example cookie serializes to exactly the required line. -/
theorem netscape_serialization_format :
    (∀ cookies : List Cookie,
        cookies_to_netscape cookies =
          joinSep "\n"
            ("# Netscape HTTP Cookie File" :: cookies.map specCookieLine)) ∧
    cookieLine exampleCookie = "vidssave.com\tFALSE\t/\tTRUE\t0\tsid\tabc" ∧
    cookies_to_netscape [exampleCookie] =
      "# Netscape HTTP Cookie File\nvidssave.com\tFALSE\t/\tTRUE\t0\tsid\tabc" := by
  refine ⟨?_, by decide, by decide⟩
  intro cookies
  rw [cookies_to_netscape, cookieLine_eq_specCookieLine]

/-- C10: the serialization always begins with the header line
`# Netscape HTTP Cookie File`, and for the empty cookie list the output is
exactly the header, with no trailing newline. -/
theorem netscape_header_line :
    (∀ cookies : List Cookie, ∃ rest,
        cookies_to_netscape cookies = "# Netscape HTTP Cookie File" ++ rest) ∧
    cookies_to_netscape [] = "# Netscape HTTP Cookie File" := by
  constructor
  · intro cookies
    cases cookies with
    | nil => exact ⟨"", by decide⟩
    | cons c cs =>
      refine ⟨"\n" ++ joinSep "\n" (cookieLine c :: cs.map cookieLine), ?_⟩
      rw [cookies_to_netscape, List.map_cons]
      rw [show joinSep "\n"
            ("# Netscape HTTP Cookie File" :: cookieLine c :: cs.map cookieLine) =
          "# Netscape HTTP Cookie File" ++ "\n"
            ++ joinSep "\n" (cookieLine c :: cs.map cookieLine) from rfl]
      rw [String.append_assoc]
  · rfl

/-- C4: when the nested key path `data.resources` is absent (the `data` key
missing, as in the empty JSON object, or `resources` missing under it), the
resource list is treated as empty and the request fails with the 404
`DownloadUrlNotFound` error, not with any other error kind. -/
theorem missing_resources_not_found (env : Env) (q : String)
    (hnav : env.navigationOk = true) (hinput : env.inputFound = true)
    (hcap : pyFalsy (captureAll env.requests) = false)
    (heval : env.evaluateOk = true)
    (hdata : env.parseResponse.data = none ∨
      ∃ d, env.parseResponse.data = some d ∧ d.resources = none) :
    extractResources env.parseResponse = [] ∧
    (generate_session env q).2 = .error .downloadUrlNotFound ∧
    (renderResponse (generate_session env q).2).1 = 404 := by
  have hres : extractResources env.parseResponse = [] := by
    rcases hdata with h | ⟨d, hd, hr⟩
    · simp [extractResources, h]
    · simp [extractResources, hd, hr]
  have h2 : (generate_session env q).2 = .error .downloadUrlNotFound := by
    rw [generate_session_eq]
    show (generate_session_body env q).2 = _
    rw [generate_session_body_main env q hnav hinput hcap heval, hres]
    rfl
  exact ⟨hres, h2, by rw [h2]; rfl⟩

/-- C4 witness: a concrete healthy session whose upstream returns the empty
JSON object. -/
theorem missing_resources_witness :
    extractResources envEmptyUpstream.parseResponse = [] ∧
    (generate_session envEmptyUpstream "360P").2 = .error .downloadUrlNotFound ∧
    (renderResponse (generate_session envEmptyUpstream "360P").2).1 = 404 :=
  missing_resources_not_found envEmptyUpstream "360P" rfl rfl (by decide) rfl
    (Or.inl rfl)

/-- C5: every failure is reported with the fixed status of its kind —
navigation, input-wait, payload-capture and internal failures as 500, a
missing matching resource as 404 — and the response body is a JSON object
holding a non-empty error message string. -/
theorem failure_status_by_kind (env : Env) (q : String) (f : SessionFailure)
    (h : (generate_session env q).2 = .error f) :
    ((f = .navigationTimeout ∨ f = .inputWaitTimeout ∨ f = .payloadNotCaptured ∨
        ∃ e, f = .internalError e) →
      (renderResponse (generate_session env q).2).1 = 500) ∧
    (f = .downloadUrlNotFound →
      (renderResponse (generate_session env q).2).1 = 404) ∧
    (∃ m, (renderResponse (generate_session env q).2).2 = [("detail", JVal.s m)] ∧
      m ≠ "") := by
  rw [h]
  refine ⟨?_, ?_, ?_⟩
  · rintro (rfl | rfl | rfl | ⟨e, rfl⟩) <;> rfl
  · rintro rfl; rfl
  · cases f with
    | navigationTimeout => exact ⟨"Internal Server Error", rfl, by decide⟩
    | inputWaitTimeout => exact ⟨"Internal Server Error", rfl, by decide⟩
    | payloadNotCaptured =>
      exact ⟨"Failed to capture parse payload", rfl, by decide⟩
    | downloadUrlNotFound =>
      exact ⟨"Direct download URL not found", rfl, by decide⟩
    | internalError e => exact ⟨"Internal Server Error", rfl, by decide⟩

/-- C5 witness: the payload-capture failure of a concrete session in which
no observed request carries the marker token. -/
theorem failure_status_witness :
    ((SessionFailure.payloadNotCaptured = SessionFailure.navigationTimeout ∨
        SessionFailure.payloadNotCaptured = SessionFailure.inputWaitTimeout ∨
        SessionFailure.payloadNotCaptured = SessionFailure.payloadNotCaptured ∨
        ∃ e, SessionFailure.payloadNotCaptured = SessionFailure.internalError e) →
      (renderResponse (generate_session envNoCapture "360P").2).1 = 500) ∧
    (SessionFailure.payloadNotCaptured = SessionFailure.downloadUrlNotFound →
      (renderResponse (generate_session envNoCapture "360P").2).1 = 404) ∧
    (∃ m, (renderResponse (generate_session envNoCapture "360P").2).2 =
        [("detail", JVal.s m)] ∧ m ≠ "") :=
  failure_status_by_kind envNoCapture "360P" .payloadNotCaptured rfl

/-- C6: on every exit path of `generate_session` — success, any classified
failure, or an internal error — the session launched for the request is
torn down before the request returns: the `async with` exit is the final
resource event of every trace, and every trace both launched the browser
and stopped the driver that owns it. No path skips teardown. -/
theorem teardown_on_every_path (env : Env) (q : String) :
    (generate_session env q).1.getLast? = some Ev.stopPlaywright ∧
    Ev.launchBrowser ∈ (generate_session env q).1 ∧
    Ev.stopPlaywright ∈ (generate_session env q).1 := by
  obtain ⟨t, ht⟩ := generate_session_body_launch env q
  rw [generate_session_eq]
  refine ⟨List.getLast?_concat _, ?_, ?_⟩
  · exact List.mem_append_left _ (ht ▸ List.mem_cons_self _ _)
  · exact List.mem_append_right _ (List.mem_cons_self _ _)

/-- C7: the observer assigns the slot exactly when the request is a POST
whose URL contains `/media/parse` and whose body contains `origin=cache`
(a request failing the predicate never becomes the captured payload); every
captured payload contains the marker; and whenever a payload was captured
the workflow reaches the replay step. -/
theorem observer_predicate_and_replay :
    (∀ (acc : Option String) (req : Request),
        capture_request acc req = if obsPred req then req.post_data else acc) ∧
    (∀ (reqs : List Request) (s : String),
        captureAll reqs = some s → strContains s "origin=cache" = true) ∧
    (∀ (env : Env) (q : String) (s : String),
        env.navigationOk = true → env.inputFound = true →
        captureAll env.requests = some s →
        Ev.replayParse ∈ (generate_session env q).1) := by
  refine ⟨fun acc req => capture_request_eq acc req,
    fun reqs s h => captureAll_marker reqs s h, ?_⟩
  intro env q s hnav hinput hcap
  have hmark := captureAll_marker env.requests s hcap
  have hsne : s ≠ "" := by
    intro he
    rw [he] at hmark
    exact absurd hmark (by decide)
  have hfalsy : pyFalsy (captureAll env.requests) = false := by
    rw [hcap]
    simp [pyFalsy, hsne]
  rw [generate_session_eq]
  apply List.mem_append_left
  cases he : env.evaluateOk
  · simp [generate_session_body, hnav, hinput, hfalsy, he]
  · rw [generate_session_body_main env q hnav hinput hfalsy he]
    rcases hs : selectDownloadUrl q (extractResources env.parseResponse) with e | du
    · simp
    · cases hd : pyFalsy du <;> simp [hd]

/-- C7 witness: the predicate characterization at a marker-free request, the
marker guarantee at a one-request capture, and the replay step of a
concrete healthy session. -/
theorem observer_predicate_witness :
    (capture_request none reqNoMarker =
      if obsPred reqNoMarker then reqNoMarker.post_data else none) ∧
    strContains "a=1&origin=cache" "origin=cache" = true ∧
    Ev.replayParse ∈ (generate_session envEmptyUpstream "360P").1 :=
  ⟨observer_predicate_and_replay.1 none reqNoMarker,
    observer_predicate_and_replay.2.1 [reqMatchA] "a=1&origin=cache" rfl,
    observer_predicate_and_replay.2.2 envEmptyUpstream "360P" "a=1&origin=cache"
      rfl rfl rfl⟩

/-- C8: a successful run returns 200 with a JSON body whose keys are
exactly `download_url`, `cookies`, `cookies_netscape`; the quality query
parameter defaults to `"360P"` when omitted; and the spec's end-to-end 720P
scenario yields the expected extraction result. -/
theorem success_response_contract :
    (∀ (env : Env) (q : String) (r : ExtractionResult),
        (generate_session env q).2 = .ok r →
        (renderResponse (generate_session env q).2).1 = 200 ∧
        (renderResponse (generate_session env q).2).2.map Prod.fst =
          ["download_url", "cookies", "cookies_netscape"]) ∧
    (∀ (env : Env) (u : String),
        vidssave_endpoint env u none = generate_session env "360P") ∧
    (generate_session env720 "720P").2 =
      .ok { download_url := "https://cdn.example/x.mp4"
          , cookies := [exampleCookie]
          , cookies_netscape := cookies_to_netscape [exampleCookie] } := by
  refine ⟨?_, fun env u => rfl, ?_⟩
  · intro env q r h
    rw [h]
    exact ⟨rfl, rfl⟩
  · rfl

/-- C8 witness: the response-shape contract applied to the end-to-end 720P
scenario. -/
theorem success_response_witness :
    (renderResponse (generate_session env720 "720P").2).1 = 200 ∧
    (renderResponse (generate_session env720 "720P").2).2.map Prod.fst =
      ["download_url", "cookies", "cookies_netscape"] :=
  success_response_contract.1 env720 "720P"
    { download_url := "https://cdn.example/x.mp4", cookies := [exampleCookie]
    , cookies_netscape := cookies_to_netscape [exampleCookie] } rfl

/-- C9: when the first all-four-fields match carries an empty
`download_url`, the endpoint reports the 404 `DownloadUrlNotFound` failure
and renders exactly the response of the no-match case: indistinguishable at
the public interface from the absence of any match. -/
theorem empty_download_url_not_found (env : Env) (q : String) (r : MediaResource)
    (hnav : env.navigationOk = true) (hinput : env.inputFound = true)
    (hcap : pyFalsy (captureAll env.requests) = false)
    (heval : env.evaluateOk = true)
    (hfound : (extractResources env.parseResponse).find? (matchesQuality q) = some r)
    (hurl : r.download_url = some "") :
    (generate_session env q).2 = .error .downloadUrlNotFound ∧
    renderResponse (generate_session env q).2 =
      renderResponse (Except.error SessionFailure.downloadUrlNotFound) := by
  have hsel : selectDownloadUrl q (extractResources env.parseResponse) =
      .ok (some "") := by
    rw [selectDownloadUrl, hfound]
    simp [hurl]
  have h2 : (generate_session env q).2 = .error .downloadUrlNotFound := by
    rw [generate_session_eq]
    show (generate_session_body env q).2 = _
    rw [generate_session_body_main env q hnav hinput hcap heval, hsel]
    rfl
  exact ⟨h2, by rw [h2]⟩

/-- C9 witness: a concrete session whose single matching resource has an
empty `download_url`. -/
theorem empty_download_url_witness :
    (generate_session envEmptyUrl "360P").2 = .error .downloadUrlNotFound ∧
    renderResponse (generate_session envEmptyUrl "360P").2 =
      renderResponse (Except.error SessionFailure.downloadUrlNotFound) :=
  empty_download_url_not_found envEmptyUrl "360P" entryEmptyUrl rfl rfl
    (by decide) rfl rfl rfl

end Vidssave
